/-
Verification of the Tello HUD/HGS control core against its specification.

The development shallowly embeds the three Python modules:
  * xbox_one_controller.py : the XboxController class (normalization,
    dead-zone filtering, the event-monitor update, and read()),
  * app.py                 : the App class (the update_joystick dispatch
    tick, takeoff_land, and cleanup),
  * indicators.py          : the Indicators class (the battery sampling
    step and draw_battery_indicator).

Machine integers are modelled as Int.  Python's
int((value / 32768.0) * 100) is embedded as truncated integer division
(Int.tdiv) of value * 100 by 32768: for |value| <= 2^15 both value / 32768.0
(division by a power of two of a 16-bit integer) and the subsequent
multiplication by 100 (numerator below 2^22, double has a 53-bit mantissa)
are exact in IEEE double arithmetic, and Python's int() truncates toward
zero, which is exactly Int.tdiv.

Effectful code (the dispatch tick, cleanup, the telemetry poll loop) is
embedded as pure functions from an explicit state plus a fault selector to
a trace of attempted external actions and a successor state.
-/
import Mathlib

namespace XboxController

/-- MAX_JOY_VAL = math.pow(2, 15): maximum magnitude of a joystick axis. -/
def MAX_JOY_VAL : Int := 2 ^ 15

/-- MAX_TRIG_VAL = math.pow(2, 8): maximum magnitude of a trigger reading.
(Declared in the source under the comment "Max values for normalizing" but
never referenced by any other source line.) -/
def MAX_TRIG_VAL : Int := 2 ^ 8

/-- XboxController._normalize: int((value / MAX_JOY_VAL) * 100), with the
float arithmetic exact for |value| <= 2^15 and int() truncating toward
zero. -/
def normalize (value : Int) : Int := Int.tdiv (value * 100) MAX_JOY_VAL

/-- XboxController._filter_noise: dead-zone filter returning 0 when
|value| <= 15 and the value unchanged otherwise. -/
def filter_noise (value : Int) : Int :=
  if |value| ≤ 15 then 0 else value

/-- The twenty input fields of the XboxController object, in declaration
order of xbox_one_controller.py. -/
structure ControllerState where
  LeftJoystickY : Int
  LeftJoystickX : Int
  RightJoystickY : Int
  RightJoystickX : Int
  LeftTrigger : Int
  RightTrigger : Int
  LeftBumper : Int
  RightBumper : Int
  A : Int
  X : Int
  Y : Int
  B : Int
  LeftThumb : Int
  RightThumb : Int
  Back : Int
  Start : Int
  LeftDPad : Int
  RightDPad : Int
  UpDPad : Int
  DownDPad : Int
deriving DecidableEq, Repr

/-- The all-zero initial state set by XboxController.__init__. -/
def initState : ControllerState :=
  ⟨0, 0, 0, 0, 0, 0, 0, 0, 0, 0, 0, 0, 0, 0, 0, 0, 0, 0, 0, 0⟩

/-- XboxController.read: the current input values as a list, in the exact
order of the Python list literal. -/
def read (s : ControllerState) : List Int :=
  [ s.LeftJoystickX
  , s.LeftJoystickY
  , s.RightJoystickX
  , s.RightJoystickY
  , s.LeftTrigger
  , s.RightTrigger
  , s.LeftBumper
  , s.RightBumper
  , s.A
  , s.X
  , s.Y
  , s.B
  , s.LeftThumb
  , s.RightThumb
  , s.Back
  , s.Start
  , s.LeftDPad
  , s.RightDPad
  , s.UpDPad
  , s.DownDPad ]

/-- The event codes dispatched on in XboxController._monitor_controller. -/
inductive EventCode where
  | ABS_Y | ABS_X | ABS_RY | ABS_RX | ABS_Z | ABS_RZ
  | BTN_START | BTN_TL | BTN_TR
  | BTN_SOUTH | BTN_NORTH | BTN_WEST | BTN_EAST
  | BTN_THUMBL | BTN_THUMBR | BTN_SELECT
  | BTN_TRIGGER_HAPPY1 | BTN_TRIGGER_HAPPY2
  | BTN_TRIGGER_HAPPY3 | BTN_TRIGGER_HAPPY4
  | other
deriving DecidableEq, Repr

/-- One gamepad event: a code and a raw integer state. -/
structure GamepadEvent where
  code : EventCode
  state : Int
deriving DecidableEq, Repr

/-- One arm of the event dispatch in _monitor_controller: the field named
by the event code is overwritten, axis/trigger events through
_filter_noise(_normalize(state)), button events with the raw state.  (The
Python source has a second, unreachable elif arm for BTN_START with the
identical body; it is represented by the single arm here.) -/
def processEvent (s : ControllerState) (e : GamepadEvent) : ControllerState :=
  match e.code with
  | .ABS_Y => { s with LeftJoystickY := filter_noise (normalize e.state) }
  | .ABS_X => { s with LeftJoystickX := filter_noise (normalize e.state) }
  | .ABS_RY => { s with RightJoystickY := filter_noise (normalize e.state) }
  | .ABS_RX => { s with RightJoystickX := filter_noise (normalize e.state) }
  | .ABS_Z => { s with LeftTrigger := filter_noise (normalize e.state) }
  | .ABS_RZ => { s with RightTrigger := filter_noise (normalize e.state) }
  | .BTN_START => { s with Start := e.state }
  | .BTN_TL => { s with LeftBumper := e.state }
  | .BTN_TR => { s with RightBumper := e.state }
  | .BTN_SOUTH => { s with A := e.state }
  | .BTN_NORTH => { s with Y := e.state }
  | .BTN_WEST => { s with X := e.state }
  | .BTN_EAST => { s with B := e.state }
  | .BTN_THUMBL => { s with LeftThumb := e.state }
  | .BTN_THUMBR => { s with RightThumb := e.state }
  | .BTN_SELECT => { s with Back := e.state }
  | .BTN_TRIGGER_HAPPY1 => { s with LeftDPad := e.state }
  | .BTN_TRIGGER_HAPPY2 => { s with RightDPad := e.state }
  | .BTN_TRIGGER_HAPPY3 => { s with UpDPad := e.state }
  | .BTN_TRIGGER_HAPPY4 => { s with DownDPad := e.state }
  | .other => s

/-- A stored axis value is one the monitor loop can have written: the
image of _filter_noise after _normalize over raw readings of magnitude at
most 2^15, or the initial zero (which is itself filter_noise (normalize 0)). -/
def axis_from_raw (v : Int) : Prop :=
  ∃ r : Int, -(2 ^ 15) ≤ r ∧ r ≤ 2 ^ 15 ∧ v = filter_noise (normalize r)

end XboxController

namespace App

open XboxController

/-- Which collaborator call, if any, raises during one update_joystick
tick: the controller read or the vehicle send. -/
inductive Fault where
  | ok
  | readRaises
  | sendRaises
deriving DecidableEq, Repr

/-- The externally visible actions one update_joystick tick can attempt,
in order of occurrence. -/
inductive TickAction where
  /-- threading.Thread starting self.drone.land() -/
  | dispatchLand
  /-- threading.Thread starting self.drone.takeoff() -/
  | dispatchTakeoff
  /-- time.sleep, duration in milliseconds -/
  | sleepMs (ms : Nat)
  /-- self.drone.send_rc_control(lr, fb, ud, yaw) -/
  | sendRC (lr fb ud yaw : Int)
  /-- self.root.after(ms, self.update_joystick) -/
  | scheduleNext (ms : Nat)
  /-- the print in the except-branch -/
  | logError
deriving DecidableEq, Repr

/-- The App fields the dispatch tick reads or writes: the flying flag set
in __init__, the stored rc_controls list, and the vehicle's own is_flying
attribute (owned by the drone object, read by takeoff_land). -/
structure AppState where
  flying : Bool
  rc_controls : List Int
  droneIsFlying : Bool
deriving DecidableEq, Repr

/-- The App state as __init__ leaves it (flying = False,
rc_controls = [0, 0, 0, 0]), over a grounded vehicle. -/
def initAppState : AppState :=
  { flying := false, rc_controls := [0, 0, 0, 0], droneIsFlying := false }

/-- The trace of attempted actions and the successor state of one tick. -/
structure TickResult where
  actions : List TickAction
  state : AppState
deriving DecidableEq, Repr

/-- App.takeoff_land: dispatch an asynchronous land when
self.drone.is_flying, else an asynchronous takeoff.  (self.flying is not
consulted and not assigned.) -/
def takeoff_land (droneIsFlying : Bool) : TickAction :=
  if droneIsFlying then TickAction.dispatchLand else TickAction.dispatchTakeoff

/-- App.update_joystick: one dispatch tick.  On a controller-read fault
the except-branch prints and the tick ends (self.root.after is inside the
try-block, so no rescheduling happens).  Otherwise the joystick values are
read, index 14 of the read() list is tested for truthiness and if nonzero
takeoff_land runs followed by time.sleep(0.15); the four axes are mapped
into rc_controls; then either the mapped command or the explicit all-zero
hover command is sent, and on a send fault the except-branch prints and
the tick ends without rescheduling; on success the tick reschedules itself
after 50 ms. -/
def update_joystick (st : AppState) (ctrl : ControllerState) (f : Fault) :
    TickResult :=
  match f with
  | .readRaises => { actions := [TickAction.logError], state := st }
  | _ =>
    let jv := read ctrl
    let left_joystick_x := jv.getD 0 0
    let left_joystick_y := jv.getD 1 0
    let right_joystick_x := jv.getD 2 0
    let right_joystick_y := jv.getD 3 0
    let start_button := jv.getD 14 0
    let buttonActions :=
      if start_button ≠ 0 then
        [takeoff_land st.droneIsFlying, TickAction.sleepMs 150]
      else []
    let rc := [right_joystick_x, right_joystick_y, left_joystick_y, left_joystick_x]
    let st2 := { st with rc_controls := rc }
    match f with
    | .sendRaises =>
      { actions := buttonActions ++ [TickAction.logError], state := st2 }
    | _ =>
      let sendAct :=
        if rc ≠ [0, 0, 0, 0] then
          TickAction.sendRC (rc.getD 0 0) (rc.getD 1 0) (rc.getD 2 0) (rc.getD 3 0)
        else
          TickAction.sendRC 0 0 0 0
      { actions := buttonActions ++ [sendAct, TickAction.scheduleNext 50]
      , state := st2 }

/-- A velocity-command action has all four components in [-100, 100];
every other action satisfies the predicate vacuously. -/
def sendBounded : TickAction → Prop
  | TickAction.sendRC lr fb ud yaw =>
      -100 ≤ lr ∧ lr ≤ 100 ∧ -100 ≤ fb ∧ fb ≤ 100 ∧
      -100 ≤ ud ∧ ud ≤ 100 ∧ -100 ≤ yaw ∧ yaw ≤ 100
  | _ => True

/-- Recognizer for velocity-command actions. -/
def isSendRC : TickAction → Bool
  | TickAction.sendRC _ _ _ _ => true
  | _ => false

/-- Recognizer for takeoff/land dispatch actions. -/
def isDispatch : TickAction → Bool
  | TickAction.dispatchLand => true
  | TickAction.dispatchTakeoff => true
  | _ => false

/-- The external actions App.cleanup attempts, in order. -/
inductive CleanupAction where
  /-- the print announcing resource cleanup -/
  | logStart
  /-- self.indicators.update set to False -/
  | stopIndicators
  /-- self.drone.end() completing -/
  | droneEnd
  /-- self.root.quit() -/
  | quitGui
  /-- the final exit() call -/
  | exitProcess
  /-- the print in the except-branch -/
  | logError
deriving DecidableEq, Repr

/-- App.cleanup: the whole body is one try-block, so when drone.end()
raises, control jumps to the except-branch print and root.quit() and
exit() never run; the indicator stop flag was already cleared before the
failing call. -/
def cleanup (droneEndRaises : Bool) : List CleanupAction :=
  if droneEndRaises then
    [CleanupAction.logStart, CleanupAction.stopIndicators, CleanupAction.logError]
  else
    [CleanupAction.logStart, CleanupAction.stopIndicators, CleanupAction.droneEnd,
     CleanupAction.quitGui, CleanupAction.exitProcess]

/-- A controller snapshot with only the Back button held (the field read
through index 14 of read() in update_joystick). -/
def ctrlBackPressed : ControllerState := { initState with Back := 1 }

/-- A controller snapshot with only the Start button held (index 15 of
read(), which update_joystick never reads). -/
def ctrlStartPressed : ControllerState := { initState with Start := 1 }

end App

namespace Indicators

/-- One iteration of the while-loop body of Indicators.update_indicators:
given the stored battery snapshot and the result of drone.get_battery()
(none meaning the call raises), return the snapshot after the iteration
and whether the loop keeps running.  The loop body has no try-block, so a
raising read leaves the snapshot as it was and terminates the sampling
thread. -/
def update_indicators_step (battery : Int) (reading : Option Int) :
    Int × Bool :=
  match reading with
  | some b => (b, true)
  | none => (battery, false)

/-- Iterated sampling: fold update_indicators_step over a list of poll
outcomes, stopping (as the thread does) at the first raising read. -/
def runPolls (battery : Int) (readings : List (Option Int)) : Int × Bool :=
  match readings with
  | [] => (battery, true)
  | r :: rs =>
    match update_indicators_step battery r with
    | (b, true) => runPolls b rs
    | (b, false) => (b, false)

/-- The three fill colors draw_battery_indicator can pick. -/
inductive Color where
  | green
  | yellow
  | red
deriving DecidableEq, Repr

/-- The color branch of Indicators.draw_battery_indicator: green when
battery >= 70, yellow when 40 <= battery < 70, red otherwise. -/
def battery_color (battery : Int) : Color :=
  if battery ≥ 70 then Color.green
  else if 40 ≤ battery ∧ battery < 70 then Color.yellow
  else Color.red

/-- The number of cv2.line segments drawn by
Indicators.draw_battery_indicator, following the source's branch
structure exactly. -/
def battery_segments (battery : Int) : Nat :=
  if battery ≥ 70 then
    if battery = 100 then 10
    else if 90 ≤ battery ∧ battery < 100 then 9
    else if 80 ≤ battery ∧ battery < 90 then 8
    else 7
  else if 40 ≤ battery ∧ battery < 70 then
    if battery ≥ 60 then 6
    else if 50 ≤ battery ∧ battery < 60 then 5
    else 4
  else
    if battery ≥ 30 then 3
    else if 20 ≤ battery ∧ battery < 30 then 2
    else 1

/-- Modelled from the spec: the spec-side segment rule of section 4.5 —
the bar count is floor(percentage / 10), capped at the band boundaries to
at least 1 segment (10%) and at most 10 segments (100%). -/
def spec_segments (battery : Int) : Nat :=
  max 1 (min 10 (battery.toNat / 10))

/-- Modelled from the spec: the spec-side color bands of section 4.5 —
red below 40%, yellow for 40-69%, green from 70% up. -/
def spec_color (battery : Int) : Color :=
  if battery < 40 then Color.red
  else if battery ≤ 69 then Color.yellow
  else Color.green

end Indicators

namespace XboxController

theorem tdiv_le_tdiv_right {a b d : Int} (hd : 0 < d) (h : a ≤ b) :
    a.tdiv d ≤ b.tdiv d := by
  rcases le_total 0 a with ha | ha
  · have hb : 0 ≤ b := le_trans ha h
    rw [Int.tdiv_eq_ediv ha (le_of_lt hd), Int.tdiv_eq_ediv hb (le_of_lt hd)]
    exact Int.ediv_le_ediv hd h
  · rcases le_total b 0 with hb | hb
    · have ha' : 0 ≤ -b := by omega
      have hb' : 0 ≤ -a := by omega
      have h' : -b ≤ -a := by omega
      have e1 : a.tdiv d = -((-a).tdiv d) := by rw [Int.neg_tdiv]; omega
      have e2 : b.tdiv d = -((-b).tdiv d) := by rw [Int.neg_tdiv]; omega
      rw [e1, e2]
      have : (-b).tdiv d ≤ (-a).tdiv d := by
        rw [Int.tdiv_eq_ediv ha' (le_of_lt hd), Int.tdiv_eq_ediv hb' (le_of_lt hd)]
        exact Int.ediv_le_ediv hd h'
      omega
    · have h1 : a.tdiv d ≤ 0 := by
        have : 0 ≤ (-a).tdiv d := Int.tdiv_nonneg (by omega) (le_of_lt hd)
        rw [Int.neg_tdiv] at this
        omega
      have h2 : 0 ≤ b.tdiv d := Int.tdiv_nonneg hb (le_of_lt hd)
      omega

/-- normalize is monotone in the raw reading. -/
theorem normalize_mono {a b : Int} (h : a ≤ b) : normalize a ≤ normalize b := by
  unfold normalize MAX_JOY_VAL
  exact tdiv_le_tdiv_right (by norm_num) (by nlinarith)

theorem normalize_max : normalize (2 ^ 15) = 100 := by decide

theorem normalize_neg_max : normalize (-(2 ^ 15)) = -100 := by decide

theorem normalize_zero : normalize 0 = 0 := by decide

/-- Range bound: a normalized reading of a raw value of magnitude at most
2^15 lies in [-100, 100]. -/
theorem normalize_bounds {r : Int} (h1 : -(2 ^ 15) ≤ r) (h2 : r ≤ 2 ^ 15) :
    -100 ≤ normalize r ∧ normalize r ≤ 100 := by
  constructor
  · have := normalize_mono h1
    rwa [normalize_neg_max] at this
  · have := normalize_mono h2
    rwa [normalize_max] at this

/-- The dead-zone filter returns either zero or its argument. -/
theorem filter_noise_cases (v : Int) :
    filter_noise v = 0 ∨ filter_noise v = v := by
  unfold filter_noise
  split <;> simp

/-- Any value the monitor loop can store into an axis field lies in
[-100, 100]. -/
theorem axis_from_raw_bounds {v : Int} (h : axis_from_raw v) :
    -100 ≤ v ∧ v ≤ 100 := by
  obtain ⟨r, h1, h2, rfl⟩ := h
  have hb := normalize_bounds h1 h2
  rcases filter_noise_cases (normalize r) with he | he <;> rw [he]
  · exact ⟨by norm_num, by norm_num⟩
  · exact hb

end XboxController

namespace Indicators

/-- The indicator always draws at least one segment, whatever the stored
battery value: every branch of draw_battery_indicator draws. -/
theorem one_le_battery_segments (battery : Int) :
    1 ≤ battery_segments battery := by
  unfold battery_segments
  repeat' split
  all_goals norm_num

end Indicators

namespace App

open XboxController

/-- The action trace of a fault-free tick, by unfolding update_joystick. -/
theorem update_joystick_ok_actions (st : AppState) (ctrl : ControllerState) :
    (update_joystick st ctrl Fault.ok).actions =
    (if ctrl.Back ≠ 0 then
        [takeoff_land st.droneIsFlying, TickAction.sleepMs 150]
      else []) ++
    [(if [ctrl.RightJoystickX, ctrl.RightJoystickY, ctrl.LeftJoystickY,
          ctrl.LeftJoystickX] ≠ [0, 0, 0, 0] then
        TickAction.sendRC ctrl.RightJoystickX ctrl.RightJoystickY
          ctrl.LeftJoystickY ctrl.LeftJoystickX
      else TickAction.sendRC 0 0 0 0),
      TickAction.scheduleNext 50] := rfl

/-- The successor state of a fault-free tick keeps the flying flag. -/
theorem update_joystick_ok_state (st : AppState) (ctrl : ControllerState) :
    (update_joystick st ctrl Fault.ok).state =
    { st with rc_controls := [ctrl.RightJoystickX, ctrl.RightJoystickY,
                              ctrl.LeftJoystickY, ctrl.LeftJoystickX] } := rfl

/-- The action trace of a tick whose controller read raises. -/
theorem update_joystick_readRaises_actions (st : AppState)
    (ctrl : ControllerState) :
    (update_joystick st ctrl Fault.readRaises).actions =
    [TickAction.logError] := rfl

/-- The action trace of a tick whose velocity send raises. -/
theorem update_joystick_sendRaises_actions (st : AppState)
    (ctrl : ControllerState) :
    (update_joystick st ctrl Fault.sendRaises).actions =
    (if ctrl.Back ≠ 0 then
        [takeoff_land st.droneIsFlying, TickAction.sleepMs 150]
      else []) ++ [TickAction.logError] := rfl

end App

/-- C1: with every stored joystick axis produced by
_filter_noise(_normalize(raw)) from a raw reading in [-2^15, 2^15], every
velocity command a fault-free dispatch tick sends through send_rc_control
has all four components (lateral, forward/back, vertical, yaw) in
[-100, 100]. -/
theorem velocity_commands_bounded (st : App.AppState)
    (ctrl : XboxController.ControllerState)
    (hlx : XboxController.axis_from_raw ctrl.LeftJoystickX)
    (hly : XboxController.axis_from_raw ctrl.LeftJoystickY)
    (hrx : XboxController.axis_from_raw ctrl.RightJoystickX)
    (hry : XboxController.axis_from_raw ctrl.RightJoystickY) :
    ∀ a ∈ (App.update_joystick st ctrl App.Fault.ok).actions,
      App.sendBounded a := by
  intro a ha
  have h1 := XboxController.axis_from_raw_bounds hlx
  have h2 := XboxController.axis_from_raw_bounds hly
  have h3 := XboxController.axis_from_raw_bounds hrx
  have h4 := XboxController.axis_from_raw_bounds hry
  rw [App.update_joystick_ok_actions] at ha
  rcases List.mem_append.1 ha with hmem | hmem
  · by_cases hb : ctrl.Back ≠ 0
    · rw [if_pos hb] at hmem
      simp only [List.mem_cons, List.mem_singleton] at hmem
      rcases hmem with rfl | rfl | h
      · unfold App.takeoff_land
        split <;> trivial
      · trivial
      · cases h
    · rw [if_neg hb] at hmem
      cases hmem
  · simp only [List.mem_cons, List.mem_singleton] at hmem
    rcases hmem with rfl | rfl | h
    · split
      · exact ⟨h3.1, h3.2, h4.1, h4.2, h2.1, h2.2, h1.1, h1.2⟩
      · exact ⟨by norm_num, by norm_num, by norm_num, by norm_num,
               by norm_num, by norm_num, by norm_num, by norm_num⟩
    · trivial
    · cases h

/-- C1 witness: the all-neutral tick's hover command is bounded. -/
theorem velocity_commands_bounded_witness :
    App.sendBounded (App.TickAction.sendRC 0 0 0 0) :=
  velocity_commands_bounded App.initAppState XboxController.initState
    ⟨0, by norm_num, by norm_num, by decide⟩
    ⟨0, by norm_num, by norm_num, by decide⟩
    ⟨0, by norm_num, by norm_num, by decide⟩
    ⟨0, by norm_num, by norm_num, by decide⟩
    (App.TickAction.sendRC 0 0 0 0) (by decide)

/-- C2 counterexample: a tick whose controller read raises does not
reschedule the dispatch loop — self.root.after sits inside the try-block,
so the claimed "reschedules itself regardless of outcome" fails at this
concrete faulty tick. -/
theorem faulty_tick_not_rescheduled :
    App.TickAction.scheduleNext 50 ∉
      (App.update_joystick App.initAppState XboxController.initState
        App.Fault.readRaises).actions := by decide

/-- C2 amended: a fault-free tick reschedules itself for the next 50 ms
period; a tick in which the controller read or the velocity send raises
logs the exception but is not rescheduled, so the dispatch loop halts
there. -/
theorem tick_reschedules_only_without_fault (st : App.AppState)
    (ctrl : XboxController.ControllerState) :
    App.TickAction.scheduleNext 50 ∈
      (App.update_joystick st ctrl App.Fault.ok).actions
    ∧ ∀ f : App.Fault, f ≠ App.Fault.ok →
        App.TickAction.logError ∈ (App.update_joystick st ctrl f).actions
        ∧ App.TickAction.scheduleNext 50 ∉
            (App.update_joystick st ctrl f).actions := by
  constructor
  · rw [App.update_joystick_ok_actions]
    exact List.mem_append.2 (Or.inr (by simp))
  · intro f hf
    cases f with
    | ok => exact absurd rfl hf
    | readRaises =>
      rw [App.update_joystick_readRaises_actions]
      exact ⟨by simp, by simp⟩
    | sendRaises =>
      rw [App.update_joystick_sendRaises_actions]
      constructor
      · exact List.mem_append.2 (Or.inr (by simp))
      · intro hmem
        rcases List.mem_append.1 hmem with h | h
        · by_cases hb : ctrl.Back ≠ 0
          · rw [if_pos hb] at h
            unfold App.takeoff_land at h
            rcases List.mem_cons.1 h with h1 | h1
            · split at h1 <;> cases h1
            · simp at h1
          · rw [if_neg hb] at h
            cases h
        · simp at h

/-- C2 witness: at the concrete faulty tick the exception is logged. -/
theorem tick_reschedules_only_without_fault_witness :
    App.TickAction.logError ∈
      (App.update_joystick App.initAppState XboxController.initState
        App.Fault.readRaises).actions :=
  ((tick_reschedules_only_without_fault App.initAppState
      XboxController.initState).2 App.Fault.readRaises (by decide)).1

/-- C3 counterexample: a tick that dispatches takeoff from the grounded
initial state leaves the App's flying flag at False — update_joystick and
takeoff_land never assign self.flying, so the claimed transition of the
dispatcher's flying flag to Airborne fails at this concrete input. -/
theorem takeoff_tick_leaves_flying_flag :
    ¬ ((App.update_joystick App.initAppState App.ctrlBackPressed
          App.Fault.ok).state.flying = true) := by decide

/-- C3 amended: while grounded (vehicle not flying), a tick that sees the
mode-toggle button level nonzero dispatches exactly one takeoff (and no
landing), immediately sleeps 150 ms — which defers every later tick past
the debounce window, so a button held across that window triggers no
additional dispatch within it — but the App's flying flag is not
transitioned: the branch is chosen by the vehicle's own is_flying
attribute and self.flying stays False. -/
theorem grounded_press_single_takeoff_dispatch (st : App.AppState)
    (ctrl : XboxController.ControllerState)
    (hfly : st.flying = false) (hground : st.droneIsFlying = false)
    (hb : ctrl.Back ≠ 0) :
    ((App.update_joystick st ctrl App.Fault.ok).actions.countP
        App.isDispatch = 1)
    ∧ App.TickAction.dispatchTakeoff ∈
        (App.update_joystick st ctrl App.Fault.ok).actions
    ∧ App.TickAction.dispatchLand ∉
        (App.update_joystick st ctrl App.Fault.ok).actions
    ∧ App.TickAction.sleepMs 150 ∈
        (App.update_joystick st ctrl App.Fault.ok).actions
    ∧ (App.update_joystick st ctrl App.Fault.ok).state.flying = false := by
  simp only [App.update_joystick_ok_actions, App.update_joystick_ok_state,
    if_pos hb]
  unfold App.takeoff_land
  rw [hground]
  simp only [Bool.false_eq_true, if_false]
  refine ⟨?_, ?_, ?_, ?_, hfly⟩
  · split <;> rfl
  · exact List.mem_append.2 (Or.inl (by simp))
  · intro hmem
    rcases List.mem_append.1 hmem with h | h
    · simp [App.isDispatch] at h
    · rcases List.mem_cons.1 h with h1 | h1
      · split at h1 <;> cases h1
      · simp at h1
  · exact List.mem_append.2 (Or.inl (by simp))

/-- C3 witness: the concrete grounded tick with the Back button held. -/
theorem grounded_press_single_takeoff_dispatch_witness :
    App.TickAction.dispatchTakeoff ∈
      (App.update_joystick App.initAppState App.ctrlBackPressed
        App.Fault.ok).actions :=
  (grounded_press_single_takeoff_dispatch App.initAppState
    App.ctrlBackPressed rfl rfl (by decide)).2.1

/-- C4: a fault-free tick over an all-neutral controller (all four mapped
axes zero and the index-14 button not pressed) sends exactly one velocity
command, and that command is the explicit all-zero hover
send_rc_control(0, 0, 0, 0). -/
theorem all_neutral_tick_sends_single_hover (st : App.AppState)
    (ctrl : XboxController.ControllerState)
    (hlx : ctrl.LeftJoystickX = 0) (hly : ctrl.LeftJoystickY = 0)
    (hrx : ctrl.RightJoystickX = 0) (hry : ctrl.RightJoystickY = 0)
    (hback : ctrl.Back = 0) :
    ((App.update_joystick st ctrl App.Fault.ok).actions.countP
        App.isSendRC = 1)
    ∧ App.TickAction.sendRC 0 0 0 0 ∈
        (App.update_joystick st ctrl App.Fault.ok).actions := by
  simp only [App.update_joystick_ok_actions, hlx, hly, hrx, hry, hback]
  rw [if_neg (by norm_num : ¬ ((0 : Int) ≠ 0))]
  decide

/-- C4 witness: the initial all-neutral controller state. -/
theorem all_neutral_tick_sends_single_hover_witness :
    App.TickAction.sendRC 0 0 0 0 ∈
      (App.update_joystick App.initAppState XboxController.initState
        App.Fault.ok).actions :=
  (all_neutral_tick_sends_single_hover App.initAppState
    XboxController.initState rfl rfl rfl rfl rfl).2

/-- C5 counterexample: after a single failed battery read the sampling
loop is no longer running — the while-body of update_indicators has no
try-block, so the claimed "sampling loop continues polling" fails at this
concrete faulty poll. -/
theorem poll_loop_stops_on_failed_read :
    ¬ ((Indicators.runPolls 50 [Option.none]).2 = true) := by decide

/-- C5 amended: across any nonempty run of consecutive failing battery
reads the stored snapshot keeps its last successful value (it is never
cleared) and the overlay renderer still draws from that stale value (at
least one segment in every case); but the failure is not logged and the
sampling thread terminates at the first raising read instead of
continuing at its 1-second interval. -/
theorem failed_polls_keep_snapshot (b : Int) (rs : List (Option Int))
    (hne : rs ≠ []) (hall : ∀ r ∈ rs, r = Option.none) :
    (Indicators.runPolls b rs).1 = b
    ∧ (Indicators.runPolls b rs).2 = false
    ∧ 1 ≤ Indicators.battery_segments b := by
  cases rs with
  | nil => exact absurd rfl hne
  | cons r rs' =>
    have hr : r = Option.none := hall r (by simp)
    subst hr
    exact ⟨rfl, rfl, Indicators.one_le_battery_segments b⟩

/-- C5 witness: three consecutive failed polls from a snapshot of 50. -/
theorem failed_polls_keep_snapshot_witness :
    (Indicators.runPolls 50 [Option.none, Option.none, Option.none]).1 = 50 :=
  (failed_polls_keep_snapshot 50 [Option.none, Option.none, Option.none]
    (by simp) (by simp)).1

/-- C6: for every battery percentage p in [0, 100],
draw_battery_indicator's color band and segment count agree with the
spec's rule — red below 40, yellow for 40..69, green from 70, and
floor(p / 10) segments capped between 1 and 10 — and in particular
100 gives 10 green, 75 gives 7 green, 55 gives 5 yellow, 25 gives 2 red
and 5 gives 1 red segment. -/
theorem battery_indicator_matches_spec (p : Int)
    (h0 : 0 ≤ p) (h1 : p ≤ 100) :
    (Indicators.battery_color p = Indicators.spec_color p
      ∧ Indicators.battery_segments p = Indicators.spec_segments p)
    ∧ Indicators.battery_color 100 = Indicators.Color.green
    ∧ Indicators.battery_segments 100 = 10
    ∧ Indicators.battery_color 75 = Indicators.Color.green
    ∧ Indicators.battery_segments 75 = 7
    ∧ Indicators.battery_color 55 = Indicators.Color.yellow
    ∧ Indicators.battery_segments 55 = 5
    ∧ Indicators.battery_color 25 = Indicators.Color.red
    ∧ Indicators.battery_segments 25 = 2
    ∧ Indicators.battery_color 5 = Indicators.Color.red
    ∧ Indicators.battery_segments 5 = 1 := by
  have key : ∀ n : Nat, n < 101 →
      Indicators.battery_color (n : Int) = Indicators.spec_color (n : Int)
      ∧ Indicators.battery_segments (n : Int) =
          Indicators.spec_segments (n : Int) := by decide
  have hp : p = ((p.toNat : Nat) : Int) := by omega
  refine ⟨?_, by decide, by decide, by decide, by decide, by decide,
    by decide, by decide, by decide, by decide, by decide⟩
  rw [hp]
  exact key p.toNat (by omega)

/-- C6 witness: the indicator at 55 percent, via the theorem. -/
theorem battery_indicator_matches_spec_witness :
    Indicators.battery_color 55 = Indicators.Color.yellow
    ∧ Indicators.battery_segments 55 = 5 := by
  have h := (battery_indicator_matches_spec 55 (by norm_num) (by norm_num)).1
  exact ⟨h.1.trans (by decide), h.2.trans (by decide)⟩

/-- C7: over raw readings in [-2^15, 2^15], _normalize is monotone, maps
the extremes to 100 and -100 and zero to zero, and rounds the scaled
value toward zero (floor of the scaled magnitude, with the sign
restored). -/
theorem normalize_monotone_endpoints (r1 r2 : Int)
    (hlo : -(2 ^ 15) ≤ r1) (hhi : r2 ≤ 2 ^ 15) (h12 : r1 ≤ r2) :
    XboxController.normalize r1 ≤ XboxController.normalize r2
    ∧ XboxController.normalize (2 ^ 15) = 100
    ∧ XboxController.normalize (-(2 ^ 15)) = -100
    ∧ XboxController.normalize 0 = 0
    ∧ (0 ≤ r1 → XboxController.normalize r1 = r1 * 100 / 2 ^ 15)
    ∧ (r1 ≤ 0 →
        XboxController.normalize r1 = -((-r1 * 100) / 2 ^ 15)) := by
  refine ⟨XboxController.normalize_mono h12, XboxController.normalize_max,
    XboxController.normalize_neg_max, XboxController.normalize_zero,
    ?_, ?_⟩
  · intro hr
    unfold XboxController.normalize XboxController.MAX_JOY_VAL
    exact Int.tdiv_eq_ediv (by nlinarith) (by norm_num)
  · intro hr
    unfold XboxController.normalize XboxController.MAX_JOY_VAL
    have hneg : -r1 * 100 = -(r1 * 100) := by ring
    rw [hneg]
    have e1 : (-(r1 * 100)).tdiv (2 ^ 15) = -((r1 * 100).tdiv (2 ^ 15)) :=
      Int.neg_tdiv _ _
    have e2 : (-(r1 * 100)).tdiv (2 ^ 15) = -(r1 * 100) / 2 ^ 15 :=
      Int.tdiv_eq_ediv (by nlinarith) (by norm_num)
    omega

/-- C7 witness: monotone across the whole raw range. -/
theorem normalize_monotone_endpoints_witness :
    XboxController.normalize (-(2 ^ 15)) ≤ XboxController.normalize (2 ^ 15) :=
  (normalize_monotone_endpoints (-(2 ^ 15)) (2 ^ 15) (by norm_num)
    (by norm_num) (by norm_num)).1

/-- C8: the code normalizes trigger events against MAX_JOY_VAL = 2^15
rather than the trigger's own maximum MAX_TRIG_VAL = 2^8 (which no code
path uses): a full-scale trigger reading of 2^8 on channel ABS_Z is
stored as 0, not 100. -/
theorem trigger_normalized_against_joystick_max :
    XboxController.MAX_TRIG_VAL = 2 ^ 8
    ∧ XboxController.normalize (2 ^ 8) = 0
    ∧ (XboxController.processEvent XboxController.initState
        { code := XboxController.EventCode.ABS_Z,
          state := 2 ^ 8 }).LeftTrigger = 0 := by
  refine ⟨rfl, by decide, by decide⟩

/-- C9 counterexample: when drone.end() raises during teardown, the
process-exit step never runs — contradicting the claim that the process
exits regardless of collaborator errors. -/
theorem cleanup_skips_exit_on_collaborator_error :
    App.CleanupAction.exitProcess ∉ App.cleanup true := by decide

/-- C9 amended: a collaborator error during teardown is logged and the
steps already performed stand (the indicator loop was signaled to stop
before drone.end()), but cleanup does not proceed to completion: the GUI
main loop is not quit and the process-exit call is skipped, both of which
do run on a fault-free teardown. -/
theorem cleanup_halts_at_collaborator_error :
    App.CleanupAction.stopIndicators ∈ App.cleanup true
    ∧ App.CleanupAction.logError ∈ App.cleanup true
    ∧ App.CleanupAction.quitGui ∉ App.cleanup true
    ∧ App.CleanupAction.exitProcess ∉ App.cleanup true
    ∧ App.CleanupAction.droneEnd ∈ App.cleanup false
    ∧ App.CleanupAction.quitGui ∈ App.cleanup false
    ∧ App.CleanupAction.exitProcess ∈ App.cleanup false := by decide

/-- C10: index 14 of the list XboxController.read() returns is the Back
button field and index 15 is the Start button field; the dispatch tick
reads only index 14 for takeoff/land, so whenever Back is 0 no tick —
whatever its fault outcome — dispatches takeoff or land, regardless of
the Start button. -/
theorem takeoff_driven_by_back_button (st : App.AppState)
    (ctrl : XboxController.ControllerState) (f : App.Fault)
    (hb : ctrl.Back = 0) :
    (XboxController.read ctrl).getD 14 0 = ctrl.Back
    ∧ (XboxController.read ctrl).getD 15 0 = ctrl.Start
    ∧ ∀ a ∈ (App.update_joystick st ctrl f).actions,
        App.isDispatch a = false := by
  refine ⟨rfl, rfl, ?_⟩
  intro a ha
  cases f with
  | readRaises =>
    rw [App.update_joystick_readRaises_actions] at ha
    simp at ha
    subst ha
    rfl
  | ok =>
    rw [App.update_joystick_ok_actions, hb,
      if_neg (by norm_num : ¬ ((0 : Int) ≠ 0)), List.nil_append] at ha
    rcases List.mem_cons.1 ha with h1 | h1
    · subst h1
      split <;> rfl
    · simp at h1
      subst h1
      rfl
  | sendRaises =>
    rw [App.update_joystick_sendRaises_actions, hb,
      if_neg (by norm_num : ¬ ((0 : Int) ≠ 0)), List.nil_append] at ha
    simp at ha
    subst ha
    rfl

/-- C10 witness: a held Start button alone never dispatches takeoff. -/
theorem takeoff_driven_by_back_button_witness :
    App.TickAction.dispatchTakeoff ∉
      (App.update_joystick App.initAppState App.ctrlStartPressed
        App.Fault.ok).actions := by
  intro hmem
  have h := (takeoff_driven_by_back_button App.initAppState
    App.ctrlStartPressed App.Fault.ok rfl).2.2 _ hmem
  simp [App.isDispatch] at h
